import Mathlib

/-!
Verification of `examples/builds/get_token.py`, the single script of this
repository.  The script reads three environment variables, builds a scope
string, acquires a bearer token through an interactive browser credential,
performs one HTTP GET against a hardcoded endpoint, then creates the parent
directories of the output path and writes the response text to that file.

The embedding passes the external effects in explicitly: the credential is a
function from a scope string to a token or an error, the HTTP client is a
function from a URL and headers to a response or an error, and the
filesystem is a record of directories and file contents.  `run` mirrors the
script line by line and returns a trace of the credential calls and HTTP
requests made, the final filesystem, and the outcome.
-/

/-- The three environment variables read at the top of the script
(lines 12 to 14).  `os.getenv` yields `None` when a variable is unset,
modelled by `Option String`. -/
structure Env where
  tenantId : Option String
  clientId : Option String
  federatedTokenFile : Option String
  deriving DecidableEq

/-- How a Python f-string renders an optional string: the literal text
`None` when the value is unset, the string itself otherwise. -/
def pyStr : Option String → String
  | none => "None"
  | some s => s

/-- Line 15: `scope = f"api://\x7bclient_id\x7d/access_as_user"`. -/
def scopeOf (e : Env) : String :=
  "api://" ++ pyStr e.clientId ++ "/access_as_user"

/-- Line 16: the hardcoded endpoint URL. -/
def endpoint : String :=
  "https://prod-feature.runners.gitlab.private.key.store/api/Token/GetWorkloadIdentityToken"

/-- The object returned by `credential.get_token`, carrying the bearer
token string in its `token` attribute (line 23, used on line 26). -/
structure AccessToken where
  token : String
  deriving DecidableEq

/-- The object returned by `requests.get`: a status code and the decoded
body text (lines 27 and 34). -/
structure HttpResponse where
  status_code : Nat
  text : String
  deriving DecidableEq

/-- One outbound HTTP request: the URL and the headers passed to
`requests.get` (line 27). -/
structure HttpRequest where
  url : String
  headers : List (String × String)
  deriving DecidableEq

/-- `os.path.dirname` for POSIX paths: everything up to the last slash,
with trailing slashes stripped unless that head consists of slashes only.
`dirname "/tmp/a/token.txt" = "/tmp/a"`, `dirname "token.txt" = ""`. -/
def dirname (p : String) : String :=
  let head := (p.data.reverse.dropWhile (fun c => c != '/')).reverse
  if head.isEmpty || head.all (fun c => c == '/') then String.mk head
  else String.mk ((head.reverse.dropWhile (fun c => c == '/')).reverse)

/-- Split a character list at every slash, as Python splitting on the
single-character separator does: `splitSlash "a/b".data = [[a], [b]]`. -/
def splitSlash : List Char → List (List Char)
  | [] => [[]]
  | c :: cs =>
    let rest := splitSlash cs
    if c = '/' then [] :: rest
    else
      match rest with
      | [] => [[c]]
      | r :: rs => (c :: r) :: rs

/-- Join successive path components onto an accumulated prefix path,
returning every intermediate join. -/
def joinFrom : String → List String → List String
  | _, [] => []
  | acc, x :: xs => (acc ++ "/" ++ x) :: joinFrom (acc ++ "/" ++ x) xs

/-- All directories `os.makedirs` brings into existence for a path: the
path itself and every ancestor, e.g. `ancestors "/tmp/a/b" =
["/tmp", "/tmp/a", "/tmp/a/b"]`. -/
def ancestors (p : String) : List String :=
  match (splitSlash p.data).map (fun cs => String.mk cs) with
  | [] => []
  | first :: rest => if first = "" then joinFrom "" rest else first :: joinFrom first rest

/-- The filesystem as the script observes it: a set of existing
directories and a finite map from paths to file contents. -/
structure FileSystem where
  dirs : List String
  files : List (String × String)
  deriving DecidableEq

/-- The ways a run of the script can abort, one per uncaught Python
exception site: `credential.get_token` failing (line 23), `requests.get`
failing (line 27), `os.path.dirname(None)` raising a type error when
`AZURE_FEDERATED_TOKEN_FILE` is unset (line 32), and
`os.makedirs("", exist_ok=True)` raising a file-not-found error when the
path has no directory component (line 32). -/
inductive RunError
  | authenticationError
  | networkError
  | typeError
  | fileNotFoundError
  deriving DecidableEq

deriving instance DecidableEq for Except

/-- `os.makedirs(path, exist_ok=True)` (line 32): fails on the empty
string, otherwise succeeds — also when some or all of the directories
already exist — and makes the path and all its ancestors exist. -/
def makedirs (path : String) (fs : FileSystem) : Except RunError FileSystem :=
  if path = "" then Except.error RunError.fileNotFoundError
  else Except.ok { fs with dirs := ancestors path ++ fs.dirs }

/-- `open(path, "w")` followed by `output_file.write(content)` (lines 33
and 34): create or truncate the file, so the previous content of the path
is discarded entirely. -/
def writeFile (path content : String) (fs : FileSystem) : FileSystem :=
  { fs with files := (path, content) :: fs.files.filter (fun kv => kv.1 != path) }

/-- Look up the content of a file. -/
def readFile (fs : FileSystem) (path : String) : Option String :=
  match fs.files.find? (fun kv => kv.1 == path) with
  | some kv => some kv.2
  | none => none

/-- Line 26: `headers = {"Authorization": f"Bearer \x7btoken.token\x7d",
"Accept": "text/plain"}`. -/
def headersFor (t : AccessToken) : List (String × String) :=
  [("Authorization", "Bearer " ++ t.token), ("Accept", "text/plain")]

/-- Everything observable about one invocation of the script: the scopes
passed to `credential.get_token`, the HTTP requests issued, the outcome,
and the final filesystem. -/
structure RunResult where
  credCalls : List String
  httpRequests : List HttpRequest
  outcome : Except RunError Unit
  fs : FileSystem
  deriving DecidableEq

/-- The whole script, lines 12 to 36, as a function of the environment,
the credential, the HTTP client and the initial filesystem.  Each failing
step propagates immediately, exactly as an uncaught Python exception
aborts the linear flow: a failed token acquisition precedes the HTTP call,
and any failure up to and including directory creation precedes opening
the output file. -/
def run (env : Env) (cred : String → Except String AccessToken)
    (http : String → List (String × String) → Except String HttpResponse)
    (fs : FileSystem) : RunResult :=
  match cred (scopeOf env) with
  | Except.error _ => ⟨[scopeOf env], [], Except.error RunError.authenticationError, fs⟩
  | Except.ok token =>
    match http endpoint (headersFor token) with
    | Except.error _ =>
      ⟨[scopeOf env], [⟨endpoint, headersFor token⟩], Except.error RunError.networkError, fs⟩
    | Except.ok response =>
      match env.federatedTokenFile with
      | none =>
        ⟨[scopeOf env], [⟨endpoint, headersFor token⟩], Except.error RunError.typeError, fs⟩
      | some path =>
        match makedirs (dirname path) fs with
        | Except.error e =>
          ⟨[scopeOf env], [⟨endpoint, headersFor token⟩], Except.error e, fs⟩
        | Except.ok fs2 =>
          ⟨[scopeOf env], [⟨endpoint, headersFor token⟩], Except.ok (),
            writeFile path response.text fs2⟩

/-- Concrete fixtures used by the witnesses below. -/
def envW : Env := ⟨some "tenant-1", some "client-1", some "/tmp/out/token.txt"⟩

def envDeep : Env := ⟨some "tenant-1", some "client-1", some "/tmp/a/b/c/token.txt"⟩

def envNoFile : Env := ⟨some "tenant-1", some "client-1", none⟩

def credOk : String → Except String AccessToken := fun _ => Except.ok ⟨"tok-abc"⟩

def credFail : String → Except String AccessToken := fun _ => Except.error "auth denied"

def httpHello : String → List (String × String) → Except String HttpResponse :=
  fun _ _ => Except.ok ⟨200, "hello-token"⟩

def http404 : String → List (String × String) → Except String HttpResponse :=
  fun _ _ => Except.ok ⟨404, "not-authorized"⟩

def httpFail : String → List (String × String) → Except String HttpResponse :=
  fun _ _ => Except.error "connection refused"

def fs0 : FileSystem := ⟨[], []⟩

/-- Reading a file just written yields exactly the written content. -/
theorem readFile_writeFile (p c : String) (fs : FileSystem) :
    readFile (writeFile p c fs) p = some c := by
  unfold readFile writeFile
  simp [List.find?]

/-- In every run, `credential.get_token` is called exactly once, with the
scope built from the environment. -/
theorem run_credCalls (env : Env) (cred : String → Except String AccessToken)
    (http : String → List (String × String) → Except String HttpResponse)
    (fs : FileSystem) : (run env cred http fs).credCalls = [scopeOf env] := by
  rcases hc : cred (scopeOf env) with e | tok
  · simp [run, hc]
  · rcases hh : http endpoint (headersFor tok) with e | resp
    · simp [run, hc, hh]
    · rcases hf : env.federatedTokenFile with _ | p
      · simp [run, hc, hh, hf]
      · rcases hm : makedirs (dirname p) fs with e | fs2
        · simp [run, hc, hh, hf, hm]
        · simp [run, hc, hh, hf, hm]

/-- Once the credential has yielded a token, every continuation of the run
records exactly one HTTP request, to the fixed endpoint with the bearer
headers, whether the HTTP call, the path lookup or the directory creation
succeeds or fails afterwards. -/
theorem run_httpRequests (env : Env) (cred : String → Except String AccessToken)
    (http : String → List (String × String) → Except String HttpResponse)
    (fs : FileSystem) (tok : AccessToken)
    (hcred : cred (scopeOf env) = Except.ok tok) :
    (run env cred http fs).httpRequests = [⟨endpoint, headersFor tok⟩] := by
  rcases hh : http endpoint (headersFor tok) with e | resp
  · simp [run, hcred, hh]
  · rcases hf : env.federatedTokenFile with _ | p
    · simp [run, hcred, hh, hf]
    · rcases hm : makedirs (dirname p) fs with e | fs2
      · simp [run, hcred, hh, hf, hm]
      · simp [run, hcred, hh, hf, hm]

/-- When every step succeeds, the run is equal to the explicit trace:
one credential call, one HTTP request, the directories of the output
path created, and the response text written to the output path. -/
theorem run_ok (env : Env) (cred : String → Except String AccessToken)
    (http : String → List (String × String) → Except String HttpResponse)
    (fs : FileSystem) (tok : AccessToken) (resp : HttpResponse) (p : String)
    (hcred : cred (scopeOf env) = Except.ok tok)
    (hhttp : http endpoint (headersFor tok) = Except.ok resp)
    (hpath : env.federatedTokenFile = some p)
    (hdir : dirname p ≠ "") :
    run env cred http fs =
      ⟨[scopeOf env], [⟨endpoint, headersFor tok⟩], Except.ok (),
        writeFile p resp.text { fs with dirs := ancestors (dirname p) ++ fs.dirs }⟩ := by
  simp only [run, hcred, hhttp, hpath, makedirs, if_neg hdir]

/-- Claim C1: whenever the HTTP GET completes with some response, the run
succeeds and the output file at the configured path holds exactly the
response body, with no transformation. -/
theorem response_body_written_exactly
    (env : Env) (cred : String → Except String AccessToken)
    (http : String → List (String × String) → Except String HttpResponse)
    (fs : FileSystem) (tok : AccessToken) (resp : HttpResponse) (p : String)
    (hcred : cred (scopeOf env) = Except.ok tok)
    (hhttp : http endpoint (headersFor tok) = Except.ok resp)
    (hpath : env.federatedTokenFile = some p)
    (hdir : dirname p ≠ "") :
    (run env cred http fs).outcome = Except.ok () ∧
    readFile (run env cred http fs).fs p = some resp.text := by
  rw [run_ok env cred http fs tok resp p hcred hhttp hpath hdir]
  exact ⟨rfl, readFile_writeFile p resp.text _⟩

/-- Witness for C1 at the concrete response body of the spec: the file
contains exactly `hello-token`. -/
theorem response_body_written_exactly_witness :
    (run envW credOk httpHello fs0).outcome = Except.ok () ∧
    readFile (run envW credOk httpHello fs0).fs "/tmp/out/token.txt" = some "hello-token" :=
  response_body_written_exactly envW credOk httpHello fs0 ⟨"tok-abc"⟩ ⟨200, "hello-token"⟩
    "/tmp/out/token.txt" rfl rfl rfl (by decide)

/-- Claim C2: with a credential yielding token `t`, the run issues exactly
one HTTP GET, to the fixed endpoint, with headers
`Authorization: Bearer t` and `Accept: text/plain`. -/
theorem single_get_request_with_bearer
    (env : Env) (cred : String → Except String AccessToken)
    (http : String → List (String × String) → Except String HttpResponse)
    (fs : FileSystem) (tok : AccessToken)
    (hcred : cred (scopeOf env) = Except.ok tok) :
    (run env cred http fs).httpRequests =
      [⟨endpoint, [("Authorization", "Bearer " ++ tok.token), ("Accept", "text/plain")]⟩] := by
  rw [run_httpRequests env cred http fs tok hcred]
  rfl

/-- Witness for C2 at a concrete credential returning `tok-abc`. -/
theorem single_get_request_with_bearer_witness :
    (run envW credOk httpHello fs0).httpRequests =
      [⟨endpoint, [("Authorization", "Bearer " ++ ("tok-abc" : String)), ("Accept", "text/plain")]⟩] :=
  single_get_request_with_bearer envW credOk httpHello fs0 ⟨"tok-abc"⟩ rfl

/-- Claim C3: a token-acquisition failure aborts the run with no HTTP call
and an unchanged filesystem, and an HTTP failure aborts the run with an
unchanged filesystem; in both cases no file is written and no directory is
created. -/
theorem failure_aborts_without_side_effects
    (env : Env) (cred : String → Except String AccessToken)
    (http : String → List (String × String) → Except String HttpResponse)
    (fs : FileSystem) :
    ((∃ e, cred (scopeOf env) = Except.error e) →
      run env cred http fs =
        ⟨[scopeOf env], [], Except.error RunError.authenticationError, fs⟩) ∧
    (∀ tok, cred (scopeOf env) = Except.ok tok →
      (∃ e, http endpoint (headersFor tok) = Except.error e) →
      run env cred http fs =
        ⟨[scopeOf env], [⟨endpoint, headersFor tok⟩],
          Except.error RunError.networkError, fs⟩) := by
  constructor
  · rintro ⟨e, he⟩
    simp [run, he]
  · rintro tok htok ⟨e, he⟩
    simp [run, htok, he]

/-- Witness for C3: a failing credential makes no HTTP call and leaves the
filesystem empty; a failing HTTP client leaves the filesystem empty. -/
theorem failure_aborts_without_side_effects_witness :
    run envW credFail httpHello fs0 =
      ⟨[scopeOf envW], [], Except.error RunError.authenticationError, fs0⟩ ∧
    run envW credOk httpFail fs0 =
      ⟨[scopeOf envW], [⟨endpoint, headersFor ⟨"tok-abc"⟩⟩],
        Except.error RunError.networkError, fs0⟩ :=
  ⟨(failure_aborts_without_side_effects envW credFail httpHello fs0).1 ⟨"auth denied", rfl⟩,
   (failure_aborts_without_side_effects envW credOk httpFail fs0).2 ⟨"tok-abc"⟩ rfl
     ⟨"connection refused", rfl⟩⟩

/-- Claim C4: the status code is never inspected — for every status, also
any non-200 one, the response body is written to the output file and the
run succeeds. -/
theorem write_not_gated_on_status
    (env : Env) (cred : String → Except String AccessToken)
    (http : String → List (String × String) → Except String HttpResponse)
    (fs : FileSystem) (tok : AccessToken) (status : Nat) (body p : String)
    (hcred : cred (scopeOf env) = Except.ok tok)
    (hhttp : http endpoint (headersFor tok) = Except.ok ⟨status, body⟩)
    (hpath : env.federatedTokenFile = some p)
    (hdir : dirname p ≠ "") :
    (run env cred http fs).outcome = Except.ok () ∧
    readFile (run env cred http fs).fs p = some body := by
  rw [run_ok env cred http fs tok ⟨status, body⟩ p hcred hhttp hpath hdir]
  exact ⟨rfl, readFile_writeFile p body _⟩

/-- Witness for C4 at status 404: the body is still written. -/
theorem write_not_gated_on_status_witness :
    (run envW credOk http404 fs0).outcome = Except.ok () ∧
    readFile (run envW credOk http404 fs0).fs "/tmp/out/token.txt" = some "not-authorized" :=
  write_not_gated_on_status envW credOk http404 fs0 ⟨"tok-abc"⟩ 404 "not-authorized"
    "/tmp/out/token.txt" rfl rfl rfl (by decide)

/-- Claim C5: when `AZURE_CLIENT_ID` is set to `c`, the scope passed to
the credential is exactly `api://` ++ c ++ `/access_as_user`. -/
theorem scope_from_client_id
    (env : Env) (cred : String → Except String AccessToken)
    (http : String → List (String × String) → Except String HttpResponse)
    (fs : FileSystem) (c : String) (h : env.clientId = some c) :
    (run env cred http fs).credCalls = ["api://" ++ c ++ "/access_as_user"] := by
  rw [run_credCalls]
  unfold scopeOf
  rw [h]
  rfl

/-- Witness for C5 at client id `client-1`. -/
theorem scope_from_client_id_witness :
    (run envW credOk httpHello fs0).credCalls = ["api://" ++ ("client-1" : String) ++ "/access_as_user"] :=
  scope_from_client_id envW credOk httpHello fs0 "client-1" rfl

/-- Claim C6: when `AZURE_CLIENT_ID` is unset the run does not fail fast;
the scope string contains the literal text `None` and is passed to the
token request as `api://None/access_as_user`. -/
theorem unset_client_id_scope_none
    (env : Env) (cred : String → Except String AccessToken)
    (http : String → List (String × String) → Except String HttpResponse)
    (fs : FileSystem) (h : env.clientId = none) :
    scopeOf env = "api://None/access_as_user" ∧
    (run env cred http fs).credCalls = ["api://None/access_as_user"] := by
  have hs : scopeOf env = "api://None/access_as_user" := by
    unfold scopeOf
    rw [h]
    rfl
  exact ⟨hs, by rw [run_credCalls, hs]⟩

/-- Witness for C6 at an environment with no client id. -/
theorem unset_client_id_scope_none_witness :
    scopeOf ⟨some "tenant-1", none, some "/tmp/out/token.txt"⟩ = "api://None/access_as_user" ∧
    (run ⟨some "tenant-1", none, some "/tmp/out/token.txt"⟩ credOk httpHello fs0).credCalls =
      ["api://None/access_as_user"] :=
  unset_client_id_scope_none ⟨some "tenant-1", none, some "/tmp/out/token.txt"⟩
    credOk httpHello fs0 rfl

/-- Claim C7: two consecutive runs writing bodies `b1` then `b2` to the
same output path leave the file containing only `b2` — the write
truncates, it never appends. -/
theorem second_run_overwrites
    (env : Env) (cred1 cred2 : String → Except String AccessToken)
    (http1 http2 : String → List (String × String) → Except String HttpResponse)
    (fs : FileSystem) (tok1 tok2 : AccessToken) (s1 s2 : Nat) (b1 b2 p : String)
    (h1c : cred1 (scopeOf env) = Except.ok tok1)
    (h1h : http1 endpoint (headersFor tok1) = Except.ok ⟨s1, b1⟩)
    (h2c : cred2 (scopeOf env) = Except.ok tok2)
    (h2h : http2 endpoint (headersFor tok2) = Except.ok ⟨s2, b2⟩)
    (hpath : env.federatedTokenFile = some p)
    (hdir : dirname p ≠ "") :
    readFile (run env cred2 http2 (run env cred1 http1 fs).fs).fs p = some b2 := by
  rw [run_ok env cred1 http1 fs tok1 ⟨s1, b1⟩ p h1c h1h hpath hdir]
  rw [run_ok env cred2 http2 _ tok2 ⟨s2, b2⟩ p h2c h2h hpath hdir]
  exact readFile_writeFile p b2 _

/-- Witness for C7: after running with body `hello-token` and then with
body `not-authorized`, the file holds only `not-authorized`. -/
theorem second_run_overwrites_witness :
    readFile (run envW credOk http404 (run envW credOk httpHello fs0).fs).fs
      "/tmp/out/token.txt" = some "not-authorized" :=
  second_run_overwrites envW credOk credOk httpHello http404 fs0 ⟨"tok-abc"⟩ ⟨"tok-abc"⟩
    200 404 "hello-token" "not-authorized" "/tmp/out/token.txt" rfl rfl rfl rfl rfl (by decide)

/-- Claim C8: when steps 1 to 5 succeed and the output path has a
directory component, the run succeeds, writes the file, and every missing
intermediate directory of the output path exists afterwards; the initial
filesystem is arbitrary, so directories that already exist never cause a
failure. -/
theorem parent_directories_created
    (env : Env) (cred : String → Except String AccessToken)
    (http : String → List (String × String) → Except String HttpResponse)
    (fs : FileSystem) (tok : AccessToken) (resp : HttpResponse) (p : String)
    (hcred : cred (scopeOf env) = Except.ok tok)
    (hhttp : http endpoint (headersFor tok) = Except.ok resp)
    (hpath : env.federatedTokenFile = some p)
    (hdir : dirname p ≠ "") :
    (run env cred http fs).outcome = Except.ok () ∧
    readFile (run env cred http fs).fs p = some resp.text ∧
    ∀ d, d ∈ ancestors (dirname p) → d ∈ (run env cred http fs).fs.dirs := by
  rw [run_ok env cred http fs tok resp p hcred hhttp hpath hdir]
  refine ⟨rfl, readFile_writeFile p resp.text _, ?_⟩
  intro d hd
  show d ∈ ancestors (dirname p) ++ fs.dirs
  exact List.mem_append_left _ hd

/-- Witness for C8 at the path of the spec, `/tmp/a/b/c/token.txt`: the
run succeeds and each intermediate directory exists afterwards. -/
theorem parent_directories_created_witness :
    (run envDeep credOk httpHello fs0).outcome = Except.ok () ∧
    "/tmp" ∈ (run envDeep credOk httpHello fs0).fs.dirs ∧
    "/tmp/a" ∈ (run envDeep credOk httpHello fs0).fs.dirs ∧
    "/tmp/a/b" ∈ (run envDeep credOk httpHello fs0).fs.dirs ∧
    "/tmp/a/b/c" ∈ (run envDeep credOk httpHello fs0).fs.dirs :=
  let t := parent_directories_created envDeep credOk httpHello fs0 ⟨"tok-abc"⟩
    ⟨200, "hello-token"⟩ "/tmp/a/b/c/token.txt" rfl rfl rfl (by decide)
  ⟨t.1, t.2.2 "/tmp" (by decide), t.2.2 "/tmp/a" (by decide),
    t.2.2 "/tmp/a/b" (by decide), t.2.2 "/tmp/a/b/c" (by decide)⟩

/-- Claim C9: the tenant identifier is read but never used — two runs
differing only in `AZURE_TENANT_ID`, with the same credential, HTTP client
and filesystem, produce identical traces, outcomes and filesystems. -/
theorem tenant_id_noninterference
    (env : Env) (t1 t2 : Option String)
    (cred : String → Except String AccessToken)
    (http : String → List (String × String) → Except String HttpResponse)
    (fs : FileSystem) :
    run { env with tenantId := t1 } cred http fs =
      run { env with tenantId := t2 } cred http fs := rfl

/-- Claim C10: when `AZURE_FEDERATED_TOKEN_FILE` is unset, or is a bare
filename with no directory component, a run whose first five steps succeed
still performs the credential call and the HTTP GET, then fails at the
directory-creation step — so the filesystem is unchanged and no file is
ever opened or written. -/
theorem missing_output_path_fails_late
    (env : Env) (cred : String → Except String AccessToken)
    (http : String → List (String × String) → Except String HttpResponse)
    (fs : FileSystem) (tok : AccessToken) (resp : HttpResponse)
    (hcred : cred (scopeOf env) = Except.ok tok)
    (hhttp : http endpoint (headersFor tok) = Except.ok resp)
    (hbad : env.federatedTokenFile = none ∨
      ∃ p, env.federatedTokenFile = some p ∧ dirname p = "") :
    (run env cred http fs).credCalls = [scopeOf env] ∧
    (run env cred http fs).httpRequests = [⟨endpoint, headersFor tok⟩] ∧
    (run env cred http fs).fs = fs ∧
    ((run env cred http fs).outcome = Except.error RunError.typeError ∨
      (run env cred http fs).outcome = Except.error RunError.fileNotFoundError) := by
  rcases hbad with hnone | ⟨p, hp, hd⟩
  · have hrun : run env cred http fs =
        ⟨[scopeOf env], [⟨endpoint, headersFor tok⟩], Except.error RunError.typeError, fs⟩ := by
      simp [run, hcred, hhttp, hnone]
    rw [hrun]
    exact ⟨rfl, rfl, rfl, Or.inl rfl⟩
  · have hrun : run env cred http fs =
        ⟨[scopeOf env], [⟨endpoint, headersFor tok⟩],
          Except.error RunError.fileNotFoundError, fs⟩ := by
      simp [run, hcred, hhttp, hp, makedirs, if_pos hd]
    rw [hrun]
    exact ⟨rfl, rfl, rfl, Or.inr rfl⟩

/-- Witness for C10 with `AZURE_FEDERATED_TOKEN_FILE` unset: the login and
the HTTP GET happen, the filesystem is untouched, the run fails. -/
theorem missing_output_path_fails_late_witness :
    (run envNoFile credOk httpHello fs0).credCalls = [scopeOf envNoFile] ∧
    (run envNoFile credOk httpHello fs0).httpRequests = [⟨endpoint, headersFor ⟨"tok-abc"⟩⟩] ∧
    (run envNoFile credOk httpHello fs0).fs = fs0 ∧
    ((run envNoFile credOk httpHello fs0).outcome = Except.error RunError.typeError ∨
      (run envNoFile credOk httpHello fs0).outcome = Except.error RunError.fileNotFoundError) :=
  missing_output_path_fails_late envNoFile credOk httpHello fs0 ⟨"tok-abc"⟩
    ⟨200, "hello-token"⟩ rfl rfl (Or.inl rfl)
